import Mathlib

/-
  Verification development for the smart-cctv-app repository.

  Part 1 models the Media Analysis Pipeline (frame sampling, detector
  orchestration, alert and activity emission with deduplication and a
  fallback informational alert).  Part 2 models the Stream Session
  Manager (per-camera transcoding process lifecycle).  Part 3 embeds the
  frontend code that is present in the repository (axios response
  interceptor, camera name validation, upload result messages).
-/

namespace Pipeline

/-- Modelled from the spec: the backend service code
(`app/services/video_processing_service.py` and the detection services)
is not present in the repository snapshot; only its documentation is.
Detection kinds per spec section 3: face, mask_violation, spoof, activity. -/
inductive DetKind where
  | face
  | maskViolation
  | spoof
  | activity
deriving DecidableEq

/-- Modelled from the spec: a Detection is a typed result with a
confidence score and the index of the frame it was produced from. -/
structure Detection where
  kind : DetKind
  confidence : Rat
  frameIndex : Nat
deriving DecidableEq

/-- Modelled from the spec: alert types produced by the alert-worthiness
rules of section 4.2, plus the low-severity informational fallback. -/
inductive AlertType where
  | maskViolation
  | faceSpoof
  | suspiciousActivity
  | processingInfo
deriving DecidableEq

inductive Severity where
  | low
  | medium
  | high
  | critical
deriving DecidableEq

/-- Modelled from the spec: the Alert record created by the Orchestrator
(camera id, alert type, severity, recorded confidence and originating
frame index; status is always pending at creation). -/
structure Alert where
  cameraId : Nat
  atype : AlertType
  severity : Severity
  confidence : Rat
  frameIndex : Nat
deriving DecidableEq

/-- Modelled from the spec: the Activity record, one per detector hit
regardless of alert-worthiness. -/
structure Activity where
  cameraId : Nat
  kind : DetKind
  confidence : Rat
  frameIndex : Nat
deriving DecidableEq

inductive AssetKind where
  | image
  | video
deriving DecidableEq

/-- Modelled from the spec: a MediaAsset with its owning camera, kind,
decoded frame count and whether the container can be decoded at all. -/
structure MediaAsset where
  cameraId : Nat
  kind : AssetKind
  totalFrames : Nat
  decodable : Bool
deriving DecidableEq

/-- Modelled from the spec: pipeline configuration, a positive frame
sampling stride and the alert-worthiness thresholds (defaults 0.5 for
mask compliance and 0.6 for spoof likelihood). -/
structure AnalysisConfig where
  frameInterval : Nat
  maskThreshold : Rat
  spoofThreshold : Rat
  activityThreshold : Rat
deriving DecidableEq

/-- Modelled from the spec: each detector consumes one frame (here its
sampled index) and either returns detections or fails; a detector
failure is caught by the Orchestrator and never aborts the run. -/
structure DetectorSet where
  face : Nat → Except Unit (List Detection)
  mask : Nat → Except Unit (List Detection)
  spoof : Nat → Except Unit (List Detection)
  act : Nat → Except Unit (List Detection)

/-- Modelled from the spec: the Sink collaborator; each write is
attempted independently and may fail. -/
structure Sink where
  alertOk : Alert → Bool
  activityOk : Activity → Bool

structure AnalysisResult where
  alerts_created : Nat
  activities_created : Nat
  frames_analyzed : Nat
deriving DecidableEq

/-- Modelled from the spec: frame extraction, section 4.1.  An image
asset yields exactly one frame; a video asset is sampled at the fixed
stride frame_interval (every frame index divisible by the stride). -/
def extract (cfg : AnalysisConfig) (a : MediaAsset) : List Nat :=
  match a.kind with
  | .image => [0]
  | .video => (List.range a.totalFrames).filter (fun i => i % cfg.frameInterval == 0)

/-- Recover a single detector failure to an empty detection list. -/
def detRun (f : Nat → Except Unit (List Detection)) (i : Nat) : List Detection :=
  match f i with
  | .ok l => l
  | .error _ => []

/-- Modelled from the spec: detectors run in the fixed order
{face, mask, spoof, activity} on each frame. -/
def runDetectors (ds : DetectorSet) (i : Nat) : List Detection :=
  detRun ds.face i ++ detRun ds.mask i ++ detRun ds.spoof i ++ detRun ds.act i

/-- Modelled from the spec: alert-worthiness rules of section 4.2.  A
mask violation detection qualifies when a face was detected in the same
frame and the mask confidence is below the compliance threshold; a spoof
detection qualifies above the spoof threshold; an activity detection
qualifies above the activity threshold; face detections never directly
qualify. -/
def qualify (cfg : AnalysisConfig) (frameDets : List Detection) (d : Detection) :
    Option (AlertType × Detection) :=
  match d.kind with
  | .maskViolation =>
      if frameDets.any (fun x => x.kind == DetKind.face) && decide (d.confidence < cfg.maskThreshold) then
        some (AlertType.maskViolation, d)
      else none
  | .spoof =>
      if decide (d.confidence > cfg.spoofThreshold) then some (AlertType.faceSpoof, d) else none
  | .activity =>
      if decide (d.confidence > cfg.activityThreshold) then some (AlertType.suspiciousActivity, d) else none
  | .face => none

/-- A pending deduplicated alert draft: its type, the detection of the
first qualifying frame, and the running maximum confidence. -/
structure Draft where
  atype : AlertType
  first : Detection
  maxConf : Rat
deriving DecidableEq

/-- Modelled from the spec: dedup state update, section 5.  The first
qualifying occurrence of an alert type creates the draft; subsequent
occurrences only update the maximum confidence. -/
def insertDet (t : AlertType) (d : Detection) : List Draft → List Draft
  | [] => [⟨t, d, d.confidence⟩]
  | dr :: rest =>
      if dr.atype = t then ⟨dr.atype, dr.first, max dr.maxConf d.confidence⟩ :: rest
      else dr :: insertDet t d rest

/-- Modelled from the spec: fold the qualifying detections of a run, in
frame order, through the dedup state. -/
def dedupRun (l : List (AlertType × Detection)) : List Draft :=
  l.foldl (fun acc p => insertDet p.1 p.2 acc) []

def severityOf : AlertType → Severity
  | .maskViolation => .medium
  | .faceSpoof => .high
  | .suspiciousActivity => .high
  | .processingInfo => .low

def mkAlert (camId : Nat) (dr : Draft) : Alert :=
  ⟨camId, dr.atype, severityOf dr.atype, dr.maxConf, dr.first.frameIndex⟩

/-- Modelled from the spec: the low-severity informational fallback
alert recording that processing occurred with zero violations found. -/
def infoAlert (camId : Nat) : Alert :=
  ⟨camId, AlertType.processingInfo, Severity.low, 0, 0⟩

def mkActivity (camId : Nat) (d : Detection) : Activity :=
  ⟨camId, d.kind, d.confidence, d.frameIndex⟩

/-- Everything one analysis run produces, before and after sink writes. -/
structure RunTrace where
  frames : List Nat
  detections : List (Nat × List Detection)
  qualifying : List (AlertType × Detection)
  alerts : List Alert
  activities : List Activity
  result : AnalysisResult
deriving DecidableEq

/-- The per-frame detection lists of a run, in ascending frame order. -/
def detectionsOf (cfg : AnalysisConfig) (ds : DetectorSet) (a : MediaAsset) :
    List (Nat × List Detection) :=
  (extract cfg a).map (fun i => (i, runDetectors ds i))

/-- The qualifying detections of a run, in frame order. -/
def qualifyingOf (cfg : AnalysisConfig) (ds : DetectorSet) (a : MediaAsset) :
    List (AlertType × Detection) :=
  (detectionsOf cfg ds a).flatMap (fun p => p.2.filterMap (qualify cfg p.2))

/-- The deduplicated alert drafts of a run. -/
def draftsOf (cfg : AnalysisConfig) (ds : DetectorSet) (a : MediaAsset) : List Draft :=
  dedupRun (qualifyingOf cfg ds a)

/-- Modelled from the spec: the alerts one run emits, section 4.2.  One
alert per deduplicated draft; if nothing qualified but at least one
frame was analyzed, the single informational fallback alert. -/
def alertsOf (cfg : AnalysisConfig) (ds : DetectorSet) (a : MediaAsset) : List Alert :=
  if ((draftsOf cfg ds a).map (mkAlert a.cameraId)).isEmpty && !(extract cfg a).isEmpty then
    [infoAlert a.cameraId]
  else
    (draftsOf cfg ds a).map (mkAlert a.cameraId)

/-- Modelled from the spec: the activities one run emits, one per
detection, qualifying or not. -/
def activitiesOf (cfg : AnalysisConfig) (ds : DetectorSet) (a : MediaAsset) : List Activity :=
  (detectionsOf cfg ds a).flatMap (fun p => p.2.map (mkActivity a.cameraId))

/-- Modelled from the spec: one analysis run over one decodable asset,
section 4.2.  Frames are visited in ascending index order; every
detection is logged as an Activity; qualifying detections are
deduplicated per alert type; if nothing qualifies but at least one frame
was analyzed, the informational fallback alert is emitted; each sink
write is attempted independently and the result counts the writes that
succeeded. -/
def runAsset (cfg : AnalysisConfig) (ds : DetectorSet) (sink : Sink)
    (a : MediaAsset) : RunTrace :=
  { frames := extract cfg a
    detections := detectionsOf cfg ds a
    qualifying := qualifyingOf cfg ds a
    alerts := alertsOf cfg ds a
    activities := activitiesOf cfg ds a
    result :=
      { alerts_created := ((alertsOf cfg ds a).filter sink.alertOk).length
        activities_created := ((activitiesOf cfg ds a).filter sink.activityOk).length
        frames_analyzed := (extract cfg a).length } }

inductive StartError where
  | decodeError
  | assetNotFound
deriving DecidableEq

/-- Modelled from the spec: the public analyze operation, section 4.2.
It raises AssetNotFound when the asset lookup failed and DecodeError
when the container cannot be opened; otherwise the run proceeds to a
result, with detector and sink failures recovered locally. -/
def analyze (cfg : AnalysisConfig) (ds : DetectorSet) (sink : Sink)
    (assetLookup : Option MediaAsset) : Except StartError AnalysisResult :=
  match assetLookup with
  | none => .error .assetNotFound
  | some a =>
      if a.decodable then .ok (runAsset cfg ds sink a).result
      else .error .decodeError

/-- Ceiling division, the frame count bound of section 8. -/
def ceilDiv (n k : Nat) : Nat := (n + k - 1) / k

end Pipeline

namespace StreamMgr

/-- Modelled from the spec: the per-camera session states of section
4.3.  The backend streaming service code is not present in the
repository snapshot. -/
inductive SessState where
  | stopped
  | starting
  | running
  | stopping
  | failed
deriving DecidableEq

/-- Modelled from the spec: the per-camera session owned by the Stream
Session Manager: its lifecycle state, whether the external transcoding
process is currently alive, how many processes were ever spawned for
this camera, and the identifier of the current session info. -/
structure CamSession where
  state : SessState
  procAlive : Bool
  spawnCount : Nat
  sessionId : Nat
deriving DecidableEq

def initSession : CamSession := ⟨SessState.stopped, false, 0, 0⟩

inductive StartOutcome where
  | info (sessionId : Nat)
  | failedStart
deriving DecidableEq

/-- Modelled from the spec: the start operation, section 4.3.  Under the
per-camera mutual exclusion the whole Stopped to Running transition is
one critical section, so it is modelled as one atomic step.  If the
session is already Running the existing session info is returned and no
process is spawned.  From Stopped or Failed a fresh process is spawned;
if the manifest appears within the timeout the session becomes Running,
otherwise the process is killed and the session becomes Failed. -/
def startCam (manifestAppears : Bool) (s : CamSession) : CamSession × StartOutcome :=
  match s.state with
  | .running => (s, .info s.sessionId)
  | .starting => (s, .failedStart)
  | .stopping => (s, .failedStart)
  | _ =>
      let sid := s.spawnCount + 1
      if manifestAppears then
        (⟨SessState.running, true, s.spawnCount + 1, sid⟩, .info sid)
      else
        (⟨SessState.failed, false, s.spawnCount + 1, sid⟩, .failedStart)

inductive StopOutcome where
  | ok
  | error
deriving DecidableEq

/-- Modelled from the spec: the stop operation, section 4.3.  Stopping
an already Stopped session is a no-op returning success; otherwise the
process is terminated, the output directory removed, and the session
becomes Stopped.  Stop is available at any time, including while
Starting. -/
def stopCam (s : CamSession) : CamSession × StopOutcome :=
  match s.state with
  | .stopped => (s, .ok)
  | _ => (⟨SessState.stopped, false, s.spawnCount, s.sessionId⟩, .ok)

/-- Modelled from the spec: asynchronous process-health detection,
section 4.3.  When the external process exits, a Running or Starting
session transitions to Failed; in every case the process is recorded
dead. -/
def procExitCam (s : CamSession) : CamSession :=
  if s.state = SessState.running || s.state = SessState.starting then
    ⟨SessState.failed, false, s.spawnCount, s.sessionId⟩
  else
    ⟨s.state, false, s.spawnCount, s.sessionId⟩

/-- Modelled from the spec: the status operation is a pure read
reporting whether the session is Running. -/
def statusCam (s : CamSession) : Bool :=
  s.state == SessState.running

/-- Events observable at the per-camera session: a serialized start
request (with whether the manifest appeared in time), a stop request,
and the detection of an external process exit. -/
inductive CamEvent where
  | start (manifestAppears : Bool)
  | stop
  | procExit
deriving DecidableEq

def stepCam (s : CamSession) : CamEvent → CamSession
  | .start m => (startCam m s).1
  | .stop => (stopCam s).1
  | .procExit => procExitCam s

def runEvents (s : CamSession) (evs : List CamEvent) : CamSession :=
  evs.foldl stepCam s

/-- A session state is reachable when some serialized event trace leads
to it from the initial Stopped session. -/
def Reachable (s : CamSession) : Prop :=
  ∃ evs : List CamEvent, runEvents initSession evs = s

end StreamMgr

namespace Frontend

/-- The browser-visible state touched by the axios response interceptor
in frontend/src/utils/api.js: localStorage and window.location. -/
structure BrowserState where
  store : List (String × String)
  path : String
  href : String
deriving DecidableEq

/-- One axios error as seen by the response interceptor: the optional
HTTP status of the response (error.response?.status). -/
structure ApiError where
  status : Option Nat
deriving DecidableEq

/-- localStorage.removeItem: drops every entry stored under the key. -/
def removeItem (k : String) (store : List (String × String)) : List (String × String) :=
  store.filter (fun p => p.1 ≠ k)

/-- Embedding of the response interceptor error handler of
frontend/src/utils/api.js lines 48 to 69: on HTTP 401 it removes the
token and user entries from localStorage and navigates to /login unless
the current path is already /login; in every case the same error is
rejected back to the caller. -/
def responseInterceptorOnError (e : ApiError) (st : BrowserState) :
    BrowserState × ApiError :=
  if e.status = some 401 then
    let st1 := { st with store := removeItem "user" (removeItem "token" st.store) }
    let st2 := if st1.path ≠ "/login" then { st1 with href := "/login" } else st1
    (st2, e)
  else
    (st, e)

/-- A camera row as loaded into the Cameras page state: its id and
name. -/
structure Camera where
  id : Int
  name : String
deriving DecidableEq

/-- JavaScript truthiness of the excludeId argument: null and 0 are
falsy. -/
def jsFalsy : Option Int → Bool
  | none => true
  | some v => v == 0

/-- JavaScript String.prototype.trim, modelled on the character list of
the string: drop leading and trailing whitespace. -/
def jsTrim (l : List Char) : List Char :=
  ((l.dropWhile Char.isWhitespace).reverse.dropWhile Char.isWhitespace).reverse

/-- JavaScript String.prototype.toLowerCase, modelled characterwise. -/
def jsLower (l : List Char) : List Char := l.map Char.toLower

/-- Embedding of checkDuplicateName in frontend/src/pages/Cameras.jsx
lines 50 to 57: a duplicate exists when some loaded camera has the same
trimmed lowercased name and either no truthy excludeId was given or the
camera id differs from it. -/
def checkDuplicateName (cameras : List Camera) (name : List Char)
    (excludeId : Option Int) : Bool :=
  let trimmedName := jsLower (jsTrim name)
  cameras.any (fun c =>
    jsLower (jsTrim c.name.data) == trimmedName &&
    (jsFalsy excludeId ||
      (match excludeId with
       | none => true
       | some e => c.id != e)))

/-- Outcome of the validation prefix of handleSubmit in
frontend/src/pages/Cameras.jsx lines 59 to 81: the submission is either
rejected with an error before any API call, or proceeds to the
create/update API call. -/
inductive SubmitOutcome where
  | rejectedEmpty
  | rejectedDuplicate
  | submitted
deriving DecidableEq

/-- Embedding of the validation prefix of handleSubmit: an all
whitespace name is rejected; otherwise the duplicate check runs with the
edited camera id when editing and with null when creating, and a
duplicate is rejected; only then is the create or update API called. -/
def handleSubmitValidate (cameras : List Camera) (editing : Option Int)
    (name : String) : SubmitOutcome :=
  let trimmedName := jsTrim name.data
  if trimmedName = [] then .rejectedEmpty
  else
    match editing with
    | some eid =>
        if checkDuplicateName cameras trimmedName (some eid) then .rejectedDuplicate
        else .submitted
    | none =>
        if checkDuplicateName cameras trimmedName none then .rejectedDuplicate
        else .submitted

/-- The results object of a successful upload response
(result.results). -/
structure UploadResults where
  alerts_created : Nat
  activities_created : Nat
deriving DecidableEq

/-- JavaScript expression result.results?.alerts_created || 0. -/
def alertsCreatedOrZero (results : Option UploadResults) : Nat :=
  match results with
  | none => 0
  | some r => r.alerts_created

/-- Embedding of the success message built by handleVideoUpload in
frontend/src/pages/Cameras.jsx lines 236 to 256. -/
def videoUploadSuccessMessage (results : Option UploadResults) : String :=
  "Video uploaded and processed successfully! Alerts created: " ++
    toString (alertsCreatedOrZero results)

/-- Embedding of the success message built by handleImageUpload in
frontend/src/pages/Cameras.jsx lines 258 to 278. -/
def imageUploadSuccessMessage (results : Option UploadResults) : String :=
  "Image uploaded and processed successfully! Alerts created: " ++
    toString (alertsCreatedOrZero results)

end Frontend

namespace Pipeline

/-- The draft recorded for an alert type, if any. -/
def findDraft (t : AlertType) (drafts : List Draft) : Option Draft :=
  drafts.find? (fun dr => dr.atype == t)

/-- Running maximum of the confidences of a qualifying list, seeded with
an initial confidence. -/
def updMax (c : Rat) (fl : List (AlertType × Detection)) : Rat :=
  fl.foldl (fun acc p => max acc p.2.confidence) c

/-- The alert types of a draft list, in order. -/
def keysOf (drafts : List Draft) : List AlertType :=
  drafts.map (fun dr => dr.atype)

/-- Sample configuration for concrete evaluation: stride 1, the default
thresholds of section 4.2. -/
def sampleCfg : AnalysisConfig :=
  ⟨1, mkRat 1 2, mkRat 3 5, mkRat 1 2⟩

/-- Sample configuration with stride 3. -/
def strideCfg : AnalysisConfig :=
  ⟨3, mkRat 1 2, mkRat 3 5, mkRat 1 2⟩

/-- Sample detector set: a face on every frame, a mask violation of
confidence 0.3 on frame 0 and 0.4 elsewhere, a failing spoof detector,
and no activity detections. -/
def sampleDS : DetectorSet where
  face := fun i => .ok [⟨DetKind.face, 1, i⟩]
  mask := fun i => .ok [⟨DetKind.maskViolation, if i == 0 then mkRat 3 10 else mkRat 2 5, i⟩]
  spoof := fun _ => .error ()
  act := fun _ => .ok []

/-- Sample detector set producing no qualifying detections: only faces. -/
def quietDS : DetectorSet where
  face := fun i => .ok [⟨DetKind.face, 1, i⟩]
  mask := fun _ => .ok []
  spoof := fun _ => .error ()
  act := fun _ => .ok []

/-- Sink on which every write succeeds. -/
def perfectSink : Sink := ⟨fun _ => true, fun _ => true⟩

/-- Sink on which every write fails. -/
def brokenSink : Sink := ⟨fun _ => false, fun _ => false⟩

def sampleVideo : MediaAsset := ⟨7, AssetKind.video, 2, true⟩

def longVideo : MediaAsset := ⟨7, AssetKind.video, 10, true⟩

def sampleImage : MediaAsset := ⟨7, AssetKind.image, 1, true⟩

def badAsset : MediaAsset := ⟨7, AssetKind.video, 2, false⟩

end Pipeline

namespace Pipeline

theorem updMax_cons (c : Rat) (p : AlertType × Detection) (fl : List (AlertType × Detection)) :
    updMax c (p :: fl) = updMax (max c p.2.confidence) fl := rfl

theorem le_updMax_self (c : Rat) (fl : List (AlertType × Detection)) : c ≤ updMax c fl := by
  induction fl generalizing c with
  | nil => exact le_refl c
  | cons p fl ih =>
      rw [updMax_cons]
      exact le_trans (le_max_left c p.2.confidence) (ih (max c p.2.confidence))

theorem le_updMax_of_mem {q : AlertType × Detection} {fl : List (AlertType × Detection)}
    (hq : q ∈ fl) (c : Rat) : q.2.confidence ≤ updMax c fl := by
  induction fl generalizing c with
  | nil => cases hq
  | cons p fl ih =>
      rw [updMax_cons]
      rcases List.mem_cons.mp hq with rfl | hm
      · exact le_trans (le_max_right c q.2.confidence) (le_updMax_self _ fl)
      · exact ih hm _

theorem updMax_eq_or_mem (c : Rat) (fl : List (AlertType × Detection)) :
    updMax c fl = c ∨ ∃ q ∈ fl, updMax c fl = q.2.confidence := by
  induction fl generalizing c with
  | nil => exact Or.inl rfl
  | cons p fl ih =>
      rw [updMax_cons]
      rcases ih (max c p.2.confidence) with h | ⟨q, hq, he⟩
      · rcases max_choice c p.2.confidence with hm | hm
        · exact Or.inl (by rw [h, hm])
        · exact Or.inr ⟨p, List.mem_cons_self p fl, by rw [h, hm]⟩
      · exact Or.inr ⟨q, List.mem_cons_of_mem p hq, he⟩

theorem findDraft_insertDet_self (t : AlertType) (d : Detection) (acc : List Draft) :
    findDraft t (insertDet t d acc) =
      match findDraft t acc with
      | some dr => some ⟨dr.atype, dr.first, max dr.maxConf d.confidence⟩
      | none => some ⟨t, d, d.confidence⟩ := by
  induction acc with
  | nil => simp [findDraft, insertDet]
  | cons dr rest ih =>
      by_cases h : dr.atype = t
      · simp [findDraft, insertDet, h]
      · simpa [findDraft, insertDet, h] using ih

theorem findDraft_insertDet_other (t t' : AlertType) (hne : t' ≠ t) (d : Detection)
    (acc : List Draft) :
    findDraft t' (insertDet t d acc) = findDraft t' acc := by
  have ht : ¬ t = t' := fun he => hne he.symm
  induction acc with
  | nil => simp [findDraft, insertDet, ht]
  | cons dr rest ih =>
      by_cases h : dr.atype = t
      · simp [findDraft, insertDet, h, ht]
      · by_cases h2 : dr.atype = t'
        · simp [findDraft, insertDet, h, h2, hne]
        · simpa [findDraft, insertDet, h, h2] using ih

end Pipeline

namespace Pipeline

theorem findDraft_foldl (l : List (AlertType × Detection)) :
    ∀ (acc : List Draft) (t : AlertType),
      findDraft t (l.foldl (fun a p => insertDet p.1 p.2 a) acc) =
        match findDraft t acc, l.filter (fun p => p.1 == t) with
        | some dr, fl => some ⟨dr.atype, dr.first, updMax dr.maxConf fl⟩
        | none, [] => none
        | none, q :: qs => some ⟨t, q.2, updMax q.2.confidence qs⟩ := by
  induction l with
  | nil =>
      intro acc t
      cases h : findDraft t acc <;> simp [h, updMax]
  | cons p l ih =>
      intro acc t
      rw [List.foldl_cons, ih (insertDet p.1 p.2 acc) t]
      by_cases hp : p.1 = t
      · subst hp
        rw [findDraft_insertDet_self]
        cases h : findDraft p.1 acc with
        | some dr => simp [h, List.filter_cons, updMax_cons]
        | none => simp [h, List.filter_cons]
      · rw [findDraft_insertDet_other p.1 t (fun he => hp he.symm) p.2 acc]
        cases h : findDraft t acc with
        | some dr => simp [h, List.filter_cons, hp]
        | none => simp [h, List.filter_cons, hp]

theorem findDraft_dedupRun (l : List (AlertType × Detection)) (t : AlertType) :
    findDraft t (dedupRun l) =
      match l.filter (fun p => p.1 == t) with
      | [] => none
      | q :: qs => some ⟨t, q.2, updMax q.2.confidence qs⟩ := by
  cases hf : l.filter (fun p => p.1 == t) with
  | nil => simpa [dedupRun, findDraft, hf] using findDraft_foldl l [] t
  | cons q qs => simpa [dedupRun, findDraft, hf] using findDraft_foldl l [] t

theorem keysOf_insertDet (t : AlertType) (d : Detection) (acc : List Draft) :
    keysOf (insertDet t d acc) =
      if t ∈ keysOf acc then keysOf acc else keysOf acc ++ [t] := by
  induction acc with
  | nil => simp [keysOf, insertDet]
  | cons dr rest ih =>
      by_cases h : dr.atype = t
      · simp [keysOf, insertDet, h]
      · have h' : ¬ t = dr.atype := fun he => h he.symm
        simp only [keysOf, List.map_cons] at ih ⊢
        simp [insertDet, h, ih, h']
        split <;> rfl

theorem keysOf_insertDet_nodup (t : AlertType) (d : Detection) {acc : List Draft}
    (h : (keysOf acc).Nodup) : (keysOf (insertDet t d acc)).Nodup := by
  rw [keysOf_insertDet]
  by_cases hm : t ∈ keysOf acc
  · simpa [hm] using h
  · simp [hm, List.nodup_append, h]

theorem keysOf_dedupRun_nodup (l : List (AlertType × Detection)) :
    (keysOf (dedupRun l)).Nodup := by
  have main : ∀ (l' : List (AlertType × Detection)) (acc : List Draft),
      (keysOf acc).Nodup →
      (keysOf (l'.foldl (fun a p => insertDet p.1 p.2 a) acc)).Nodup := by
    intro l'
    induction l' with
    | nil => intro acc h; exact h
    | cons p l' ih => intro acc h; exact ih _ (keysOf_insertDet_nodup _ _ h)
  exact main l [] (by simp [keysOf])

theorem filter_atype_eq_nil {drafts : List Draft} {t : AlertType}
    (h : t ∉ keysOf drafts) : drafts.filter (fun dr => dr.atype == t) = [] := by
  induction drafts with
  | nil => rfl
  | cons dr rest ih =>
      simp only [keysOf, List.map_cons, List.mem_cons, not_or] at h
      have h1 : ¬ dr.atype = t := fun he => h.1 he.symm
      have h2 : t ∉ keysOf rest := h.2
      simp [List.filter_cons, h1, ih h2]

theorem length_filter_atype_le_one {drafts : List Draft}
    (h : (keysOf drafts).Nodup) (t : AlertType) :
    (drafts.filter (fun dr => dr.atype == t)).length ≤ 1 := by
  induction drafts with
  | nil => simp
  | cons dr rest ih =>
      have hc : dr.atype ∉ keysOf rest ∧ (keysOf rest).Nodup := by
        simpa [keysOf, List.nodup_cons] using h
      by_cases he : dr.atype = t
      · subst he
        have hnil : rest.filter (fun x => x.atype == dr.atype) = [] :=
          filter_atype_eq_nil hc.1
        simp [List.filter_cons, hnil]
      · simp only [List.filter_cons]
        simp [he]
        exact ih hc.2

theorem findDraft_eq_of_mem {drafts : List Draft}
    (h : (keysOf drafts).Nodup) {dr : Draft} (hmem : dr ∈ drafts) :
    findDraft dr.atype drafts = some dr := by
  induction drafts with
  | nil => cases hmem
  | cons d0 rest ih =>
      have hc : d0.atype ∉ keysOf rest ∧ (keysOf rest).Nodup := by
        simpa [keysOf, List.nodup_cons] using h
      rcases List.mem_cons.mp hmem with rfl | hm
      · simp [findDraft]
      · have hne : ¬ d0.atype = dr.atype := by
          intro he
          exact hc.1 (by rw [he]; exact List.mem_map.mpr ⟨dr, hm, rfl⟩)
        simpa [findDraft, hne] using ih hc.2 hm

end Pipeline

namespace Pipeline

theorem filter_atype_map_mkAlert (cam : Nat) (drafts : List Draft) (t : AlertType) :
    ((drafts.map (mkAlert cam)).filter (fun al => al.atype == t)).length =
      (drafts.filter (fun dr => dr.atype == t)).length := by
  induction drafts with
  | nil => rfl
  | cons dr rest ih =>
      by_cases h : dr.atype = t
      · simp [mkAlert, List.filter_cons, h, ih]
      · simp [mkAlert, List.filter_cons, h, ih]

/-- C1: within one analysis run, at most one Alert is created per
(camera id, alert type) pair; a non-fallback Alert of a given type takes
its originating frame from the first qualifying detection of that type,
its camera from the asset, and its recorded confidence is the maximum
confidence over all qualifying detections of that type in the run. -/
theorem alerts_dedup_per_type (cfg : AnalysisConfig) (ds : DetectorSet) (sink : Sink)
    (a : MediaAsset) (t : AlertType) :
    (((runAsset cfg ds sink a).alerts.filter (fun al => al.atype == t)).length ≤ 1)
    ∧ (∀ al ∈ (runAsset cfg ds sink a).alerts, al.atype = t → t ≠ AlertType.processingInfo →
        ∃ q qs, (runAsset cfg ds sink a).qualifying.filter (fun p => p.1 == t) = q :: qs
          ∧ al.cameraId = a.cameraId
          ∧ al.frameIndex = q.2.frameIndex
          ∧ (∀ p ∈ q :: qs, p.2.confidence ≤ al.confidence)
          ∧ (∃ p ∈ q :: qs, al.confidence = p.2.confidence)) := by
  constructor
  · show ((alertsOf cfg ds a).filter (fun al => al.atype == t)).length ≤ 1
    unfold alertsOf
    split
    · exact le_trans (List.length_filter_le _ _) (by simp)
    · rw [filter_atype_map_mkAlert]
      exact length_filter_atype_le_one (keysOf_dedupRun_nodup _) t
  · intro al hal hat hinfo
    have halerts : al ∈ alertsOf cfg ds a := hal
    unfold alertsOf at halerts
    split at halerts
    · have heq : al = infoAlert a.cameraId := by simpa using halerts
      rw [heq] at hat
      exact absurd hat.symm hinfo
    · obtain ⟨dr, hdr, rfl⟩ := List.mem_map.mp halerts
      have hat' : dr.atype = t := hat
      have hfind : findDraft t (draftsOf cfg ds a) = some dr := by
        rw [← hat']
        exact findDraft_eq_of_mem (keysOf_dedupRun_nodup _) hdr
      rw [show draftsOf cfg ds a = dedupRun (qualifyingOf cfg ds a) from rfl,
        findDraft_dedupRun] at hfind
      cases hf : (qualifyingOf cfg ds a).filter (fun p => p.1 == t) with
      | nil => rw [hf] at hfind; cases hfind
      | cons q qs =>
          rw [hf] at hfind
          have hdr_eq : dr = ⟨t, q.2, updMax q.2.confidence qs⟩ := (Option.some.inj hfind).symm
          subst hdr_eq
          refine ⟨q, qs, hf, rfl, rfl, ?_, ?_⟩
          · intro p hp
            rcases List.mem_cons.mp hp with rfl | hm
            · exact le_updMax_self _ qs
            · exact le_updMax_of_mem hm _
          · rcases updMax_eq_or_mem q.2.confidence qs with h | ⟨p, hp, he⟩
            · exact ⟨q, List.mem_cons_self q qs, h⟩
            · exact ⟨p, List.mem_cons_of_mem q hp, he⟩

end Pipeline

namespace Pipeline

/-- Concrete check of the dedup theorem: stride 1 over a two frame video
whose mask detector reports confidences 0.3 on frame 0 and 0.4 on frame
1 yields one mask violation alert from frame 0 with confidence 0.4. -/
theorem alerts_dedup_per_type_check :
    (((runAsset sampleCfg sampleDS perfectSink sampleVideo).alerts.filter
        (fun al => al.atype == AlertType.maskViolation)).length ≤ 1)
    ∧ (∃ q qs,
        (runAsset sampleCfg sampleDS perfectSink sampleVideo).qualifying.filter
            (fun p => p.1 == AlertType.maskViolation) = q :: qs
        ∧ (⟨7, AlertType.maskViolation, Severity.medium, mkRat 2 5, 0⟩ : Alert).cameraId
            = sampleVideo.cameraId
        ∧ (⟨7, AlertType.maskViolation, Severity.medium, mkRat 2 5, 0⟩ : Alert).frameIndex
            = q.2.frameIndex
        ∧ (∀ p ∈ q :: qs, p.2.confidence ≤
            (⟨7, AlertType.maskViolation, Severity.medium, mkRat 2 5, 0⟩ : Alert).confidence)
        ∧ (∃ p ∈ q :: qs,
            (⟨7, AlertType.maskViolation, Severity.medium, mkRat 2 5, 0⟩ : Alert).confidence
              = p.2.confidence)) :=
  ⟨(alerts_dedup_per_type sampleCfg sampleDS perfectSink sampleVideo AlertType.maskViolation).1,
   (alerts_dedup_per_type sampleCfg sampleDS perfectSink sampleVideo AlertType.maskViolation).2
     ⟨7, AlertType.maskViolation, Severity.medium, mkRat 2 5, 0⟩ (by decide) rfl (by decide)⟩

end Pipeline

namespace Pipeline

/-- C2: a run that analyzed at least one frame and produced zero
qualifying detections emits exactly the one low-severity informational
alert; and in every run each detection, qualifying or not, is logged as
one Activity record (the emitted activities are one per detection). -/
theorem fallback_info_alert_and_activities (cfg : AnalysisConfig) (ds : DetectorSet)
    (sink : Sink) (a : MediaAsset) :
    ((runAsset cfg ds sink a).frames ≠ [] → (runAsset cfg ds sink a).qualifying = [] →
      (runAsset cfg ds sink a).alerts = [infoAlert a.cameraId]
        ∧ (infoAlert a.cameraId).severity = Severity.low)
    ∧ (runAsset cfg ds sink a).activities.length
        = ((runAsset cfg ds sink a).detections.map (fun p => p.2.length)).sum
    ∧ (∀ p ∈ (runAsset cfg ds sink a).detections, ∀ d ∈ p.2,
        mkActivity a.cameraId d ∈ (runAsset cfg ds sink a).activities) := by
  refine ⟨?_, ?_, ?_⟩
  · intro hf hq
    have hdr : draftsOf cfg ds a = [] := by
      show dedupRun (qualifyingOf cfg ds a) = []
      have hq' : qualifyingOf cfg ds a = [] := hq
      rw [hq']
      rfl
    have hfe : extract cfg a ≠ [] := hf
    refine ⟨?_, rfl⟩
    show alertsOf cfg ds a = [infoAlert a.cameraId]
    unfold alertsOf
    rw [hdr]
    simp [List.isEmpty_iff, hfe]
  · show (activitiesOf cfg ds a).length = _
    unfold activitiesOf
    rw [List.length_flatMap]
    congr 1
    apply List.map_congr_left
    intro p hp
    simp
  · intro p hp d hd
    show mkActivity a.cameraId d ∈ activitiesOf cfg ds a
    unfold activitiesOf
    exact List.mem_flatMap.mpr ⟨p, hp, List.mem_map_of_mem _ hd⟩

/-- Concrete check of the fallback theorem: one image frame with only a
face detection produces the single informational alert and one activity
for the face detection. -/
theorem fallback_info_alert_and_activities_check :
    ((runAsset sampleCfg quietDS perfectSink sampleImage).alerts
        = [infoAlert sampleImage.cameraId]
      ∧ (infoAlert sampleImage.cameraId).severity = Severity.low)
    ∧ (runAsset sampleCfg quietDS perfectSink sampleImage).activities.length
        = ((runAsset sampleCfg quietDS perfectSink sampleImage).detections.map
            (fun p => p.2.length)).sum
    ∧ mkActivity sampleImage.cameraId ⟨DetKind.face, 1, 0⟩
        ∈ (runAsset sampleCfg quietDS perfectSink sampleImage).activities :=
  ⟨(fallback_info_alert_and_activities sampleCfg quietDS perfectSink sampleImage).1
      (by decide) (by decide),
   (fallback_info_alert_and_activities sampleCfg quietDS perfectSink sampleImage).2.1,
   (fallback_info_alert_and_activities sampleCfg quietDS perfectSink sampleImage).2.2
      (0, [⟨DetKind.face, 1, 0⟩]) (by decide) ⟨DetKind.face, 1, 0⟩ (by decide)⟩

end Pipeline

namespace Pipeline

/-- C3: analyze returns a result whenever the asset exists and decodes;
it raises AssetNotFound exactly when the lookup failed and DecodeError
exactly when the container cannot be decoded, never because of detector
or sink failures, which only reduce the reported counts below the
emitted record counts. -/
theorem analyze_error_policy (cfg : AnalysisConfig) (ds : DetectorSet) (sink : Sink)
    (assetLookup : Option MediaAsset) :
    (analyze cfg ds sink assetLookup = .error StartError.assetNotFound ↔ assetLookup = none)
    ∧ (analyze cfg ds sink assetLookup = .error StartError.decodeError ↔
        ∃ a, assetLookup = some a ∧ a.decodable = false)
    ∧ (∀ a, assetLookup = some a → a.decodable = true →
        analyze cfg ds sink assetLookup = .ok (runAsset cfg ds sink a).result
        ∧ (runAsset cfg ds sink a).result.alerts_created
            ≤ (runAsset cfg ds sink a).alerts.length
        ∧ (runAsset cfg ds sink a).result.activities_created
            ≤ (runAsset cfg ds sink a).activities.length) := by
  refine ⟨?_, ?_, ?_⟩
  · cases assetLookup with
    | none => simp [analyze]
    | some a =>
        by_cases h : a.decodable
        · simp [analyze, h]
        · simp [analyze, h]
  · cases assetLookup with
    | none => simp [analyze]
    | some a =>
        by_cases h : a.decodable
        · simp [analyze, h]
        · simp [analyze, h]
  · intro a ha hdec
    subst ha
    exact ⟨by simp [analyze, hdec], List.length_filter_le _ _, List.length_filter_le _ _⟩

/-- Concrete check of the error-policy theorem: a decodable asset with a
failing spoof detector and a sink on which every write fails still
returns a result, with created counts below the emitted counts. -/
theorem analyze_error_policy_check :
    analyze sampleCfg sampleDS brokenSink (some sampleVideo)
        = .ok (runAsset sampleCfg sampleDS brokenSink sampleVideo).result
    ∧ (runAsset sampleCfg sampleDS brokenSink sampleVideo).result.alerts_created
        ≤ (runAsset sampleCfg sampleDS brokenSink sampleVideo).alerts.length
    ∧ (runAsset sampleCfg sampleDS brokenSink sampleVideo).result.activities_created
        ≤ (runAsset sampleCfg sampleDS brokenSink sampleVideo).activities.length :=
  (analyze_error_policy sampleCfg sampleDS brokenSink (some sampleVideo)).2.2
    sampleVideo rfl rfl

theorem ceilDiv_succ (n k : Nat) (hk : 0 < k) :
    ceilDiv (n + 1) k = ceilDiv n k + (if n % k = 0 then 1 else 0) := by
  unfold ceilDiv
  have h1 : n + 1 + k - 1 = (n + k - 1) + 1 := by omega
  have h2 : (n + k - 1) + 1 = n + k := by omega
  rw [h1, Nat.succ_div, h2]
  simp [Nat.dvd_add_self_right, Nat.dvd_iff_mod_eq_zero]

theorem length_filter_mod_range (n k : Nat) (hk : 0 < k) :
    ((List.range n).filter (fun i => i % k == 0)).length = ceilDiv n k := by
  induction n with
  | zero =>
      show (0 : Nat) = (0 + k - 1) / k
      exact (Nat.div_eq_of_lt (by omega)).symm
  | succ n ih =>
      rw [List.range_succ, List.filter_append, List.length_append, ih,
        ceilDiv_succ n k hk]
      by_cases h : n % k = 0
      · simp [h]
      · simp [h]

/-- C6: for a video asset the number of frames analyzed equals (hence is
at most) the ceiling of total frames over the positive sampling stride;
for an image asset exactly one frame is analyzed. -/
theorem frames_analyzed_bound (cfg : AnalysisConfig) (ds : DetectorSet) (sink : Sink)
    (a : MediaAsset) (hk : 0 < cfg.frameInterval) :
    (a.kind = AssetKind.video →
      (runAsset cfg ds sink a).result.frames_analyzed
          = ceilDiv a.totalFrames cfg.frameInterval
      ∧ (runAsset cfg ds sink a).result.frames_analyzed
          ≤ ceilDiv a.totalFrames cfg.frameInterval)
    ∧ (a.kind = AssetKind.image → (runAsset cfg ds sink a).result.frames_analyzed = 1) := by
  constructor
  · intro hv
    have he : extract cfg a
        = (List.range a.totalFrames).filter (fun i => i % cfg.frameInterval == 0) := by
      simp [extract, hv]
    have heq : (runAsset cfg ds sink a).result.frames_analyzed
        = ceilDiv a.totalFrames cfg.frameInterval := by
      show (extract cfg a).length = _
      rw [he, length_filter_mod_range _ _ hk]
    exact ⟨heq, le_of_eq heq⟩
  · intro hi
    show (extract cfg a).length = 1
    simp [extract, hi]

/-- Concrete check of the frame-count theorem: a ten frame video sampled
at stride 3 analyzes four frames, and an image analyzes one. -/
theorem frames_analyzed_bound_check :
    ((runAsset strideCfg quietDS perfectSink longVideo).result.frames_analyzed
        = ceilDiv longVideo.totalFrames strideCfg.frameInterval
      ∧ (runAsset strideCfg quietDS perfectSink longVideo).result.frames_analyzed
        ≤ ceilDiv longVideo.totalFrames strideCfg.frameInterval)
    ∧ (runAsset strideCfg quietDS perfectSink sampleImage).result.frames_analyzed = 1 :=
  ⟨(frames_analyzed_bound strideCfg quietDS perfectSink longVideo (by decide)).1 rfl,
   (frames_analyzed_bound strideCfg quietDS perfectSink sampleImage (by decide)).2 rfl⟩

end Pipeline

namespace StreamMgr

/-- C4: with the per-camera mutual exclusion serializing the two
concurrent calls, two start calls beginning from a Stopped session spawn
exactly one external process, leave exactly one Running session, and
hand both callers the same session info; a start call on an already
Running session returns the existing info and changes nothing. -/
theorem start_idempotent_single_spawn (s : CamSession) (m : Bool)
    (hs : s.state = SessState.stopped) :
    ((startCam m (startCam true s).1).1.state = SessState.running
      ∧ (startCam m (startCam true s).1).1.spawnCount = s.spawnCount + 1
      ∧ (startCam true s).2 = StartOutcome.info (s.spawnCount + 1)
      ∧ (startCam m (startCam true s).1).2 = (startCam true s).2
      ∧ (startCam m (startCam true s).1).1 = (startCam true s).1)
    ∧ (∀ s' : CamSession, s'.state = SessState.running →
        startCam m s' = (s', StartOutcome.info s'.sessionId)) := by
  constructor
  · simp [startCam, hs]
  · intro s' hs'
    simp [startCam, hs']

/-- Concrete check of the start theorem from the initial session: the
second start observes the Running session left by the first and returns
its info without a second spawn. -/
theorem start_idempotent_single_spawn_check :
    ((startCam false (startCam true initSession).1).1.state = SessState.running
      ∧ (startCam false (startCam true initSession).1).1.spawnCount
          = initSession.spawnCount + 1
      ∧ (startCam true initSession).2 = StartOutcome.info (initSession.spawnCount + 1)
      ∧ (startCam false (startCam true initSession).1).2 = (startCam true initSession).2
      ∧ (startCam false (startCam true initSession).1).1 = (startCam true initSession).1)
    ∧ startCam false (startCam true initSession).1
        = ((startCam true initSession).1,
           StartOutcome.info (startCam true initSession).1.sessionId) :=
  ⟨(start_idempotent_single_spawn initSession false rfl).1,
   (start_idempotent_single_spawn initSession false rfl).2
     (startCam true initSession).1 (by decide)⟩

theorem stepCam_preserves_alive {s : CamSession} (e : CamEvent)
    (h : s.state = SessState.running → s.procAlive = true) :
    (stepCam s e).state = SessState.running → (stepCam s e).procAlive = true := by
  cases e with
  | start m =>
      cases hs : s.state with
      | running => intro _; simpa [stepCam, startCam, hs] using h hs
      | starting => simp [stepCam, startCam, hs]
      | stopping => simp [stepCam, startCam, hs]
      | stopped => cases m <;> simp [stepCam, startCam, hs]
      | failed => cases m <;> simp [stepCam, startCam, hs]
  | stop =>
      cases hs : s.state <;> simp [stepCam, stopCam, hs]
  | procExit =>
      cases hs : s.state <;> simp [stepCam, procExitCam, hs]

theorem runEvents_preserves_alive {s0 : CamSession}
    (h : s0.state = SessState.running → s0.procAlive = true) (evs : List CamEvent) :
    (runEvents s0 evs).state = SessState.running →
      (runEvents s0 evs).procAlive = true := by
  induction evs generalizing s0 with
  | nil => exact h
  | cons e evs ih => exact ih (stepCam_preserves_alive e h)

/-- C5: in every reachable session state, status never reports streaming
while the external process is dead: after a detected process exit the
next status read is false, and whenever status reads true the process is
alive. -/
theorem status_never_true_after_exit (s : CamSession) (h : Reachable s) :
    (s.procAlive = false → statusCam s = false)
    ∧ statusCam (procExitCam s) = false
    ∧ (statusCam s = true → s.procAlive = true) := by
  obtain ⟨evs, he⟩ := h
  have hinv : s.state = SessState.running → s.procAlive = true := by
    rw [← he]
    exact runEvents_preserves_alive (by simp [initSession]) evs
  refine ⟨?_, ?_, ?_⟩
  · intro hdead
    by_cases hs : s.state = SessState.running
    · have := hinv hs
      rw [hdead] at this
      cases this
    · simp [statusCam, hs]
  · by_cases h1 : s.state = SessState.running
    · simp [procExitCam, statusCam, h1]
    · by_cases h2 : s.state = SessState.starting
      · simp [procExitCam, statusCam, h1, h2]
      · simp [procExitCam, statusCam, h1, h2]
  · intro hst
    have hs : s.state = SessState.running := by simpa [statusCam] using hst
    exact hinv hs

/-- Concrete check of the status theorem on a freshly started session:
after a detected process exit status reads false, and while status reads
true the process is alive. -/
theorem status_never_true_after_exit_check :
    statusCam (procExitCam (runEvents initSession [CamEvent.start true])) = false
    ∧ (runEvents initSession [CamEvent.start true]).procAlive = true :=
  ⟨(status_never_true_after_exit (runEvents initSession [CamEvent.start true])
      ⟨[CamEvent.start true], rfl⟩).2.1,
   (status_never_true_after_exit (runEvents initSession [CamEvent.start true])
      ⟨[CamEvent.start true], rfl⟩).2.2 (by decide)⟩

/-- C7: stopping an already Stopped session is a no-op returning
success: the state is unchanged and the outcome is ok, not an error. -/
theorem stop_idempotent_on_stopped (s : CamSession) (hs : s.state = SessState.stopped) :
    stopCam s = (s, StopOutcome.ok) := by
  simp [stopCam, hs]

/-- Concrete check of the stop theorem on the initial Stopped session. -/
theorem stop_idempotent_on_stopped_check :
    stopCam initSession = (initSession, StopOutcome.ok) :=
  stop_idempotent_on_stopped initSession rfl

end StreamMgr

namespace Frontend

theorem mem_removeItem {p : String × String} {k : String} {store : List (String × String)} :
    p ∈ removeItem k store ↔ p ∈ store ∧ p.1 ≠ k := by
  simp [removeItem, List.mem_filter]

/-- C9: the axios response interceptor on a 401 response removes the
token and user entries from localStorage and navigates to /login unless
the current path is already /login (in which case only the storage
changes); on any non-401 error the browser state is untouched; in every
case the original error is rejected back to the caller. -/
theorem response_interceptor_behavior (e : ApiError) (st : BrowserState) :
    (e.status = some 401 →
      (∀ p ∈ (responseInterceptorOnError e st).1.store, p.1 ≠ "token" ∧ p.1 ≠ "user")
      ∧ (st.path ≠ "/login" → (responseInterceptorOnError e st).1.href = "/login")
      ∧ (st.path = "/login" → (responseInterceptorOnError e st).1
          = { st with store := removeItem "user" (removeItem "token" st.store) }))
    ∧ (e.status ≠ some 401 → (responseInterceptorOnError e st).1 = st)
    ∧ (responseInterceptorOnError e st).2 = e := by
  refine ⟨?_, ?_, ?_⟩
  · intro h401
    have hstore : (responseInterceptorOnError e st).1.store
        = removeItem "user" (removeItem "token" st.store) := by
      simp only [responseInterceptorOnError, h401, if_true]
      split <;> rfl
    refine ⟨?_, ?_, ?_⟩
    · intro p hp
      rw [hstore, mem_removeItem] at hp
      obtain ⟨hp1, hu⟩ := hp
      rw [mem_removeItem] at hp1
      exact ⟨hp1.2, hu⟩
    · intro hpath
      simp [responseInterceptorOnError, h401, hpath]
    · intro hpath
      simp [responseInterceptorOnError, h401, hpath]
  · intro hne
    simp [responseInterceptorOnError, hne]
  · unfold responseInterceptorOnError
    split <;> rfl

/-- Concrete check of the interceptor theorem: a 401 on /cameras clears
token and user, keeps unrelated keys possible, navigates to /login, a
500 changes nothing, and the error is rejected unchanged. -/
theorem response_interceptor_behavior_check :
    (∀ p ∈ (responseInterceptorOnError ⟨some 401⟩
        ⟨[("token", "tok"), ("user", "u1"), ("theme", "dark")], "/cameras", "/cameras"⟩).1.store,
      p.1 ≠ "token" ∧ p.1 ≠ "user")
    ∧ (responseInterceptorOnError ⟨some 401⟩
        ⟨[("token", "tok"), ("user", "u1"), ("theme", "dark")], "/cameras", "/cameras"⟩).1.href
      = "/login"
    ∧ (responseInterceptorOnError ⟨some 500⟩
        ⟨[("token", "tok"), ("user", "u1"), ("theme", "dark")], "/cameras", "/cameras"⟩).1
      = ⟨[("token", "tok"), ("user", "u1"), ("theme", "dark")], "/cameras", "/cameras"⟩
    ∧ (responseInterceptorOnError ⟨some 401⟩
        ⟨[("token", "tok"), ("user", "u1"), ("theme", "dark")], "/cameras", "/cameras"⟩).2
      = ⟨some 401⟩ :=
  ⟨((response_interceptor_behavior ⟨some 401⟩
      ⟨[("token", "tok"), ("user", "u1"), ("theme", "dark")], "/cameras", "/cameras"⟩).1 rfl).1,
   ((response_interceptor_behavior ⟨some 401⟩
      ⟨[("token", "tok"), ("user", "u1"), ("theme", "dark")], "/cameras", "/cameras"⟩).1 rfl).2.1
      (by decide),
   (response_interceptor_behavior ⟨some 500⟩
      ⟨[("token", "tok"), ("user", "u1"), ("theme", "dark")], "/cameras", "/cameras"⟩).2.1
      (by decide),
   (response_interceptor_behavior ⟨some 401⟩
      ⟨[("token", "tok"), ("user", "u1"), ("theme", "dark")], "/cameras", "/cameras"⟩).2.2⟩

/-- C8 counterexample: two upload results with the same alerts count but
different activities counts produce identical success messages, so the
message shown to the user does not report how many activities were
produced. -/
theorem upload_message_cex :
    videoUploadSuccessMessage (some ⟨2, 5⟩) = videoUploadSuccessMessage (some ⟨2, 99⟩)
    ∧ imageUploadSuccessMessage (some ⟨2, 5⟩) = imageUploadSuccessMessage (some ⟨2, 99⟩)
    ∧ (5 : Nat) ≠ 99 :=
  ⟨rfl, rfl, by decide⟩

/-- C8 amended: the upload success messages report only the alerts
count of the result (zero when the results object is missing, per the
or-zero fallback); they are unchanged under any change that keeps the
alerts count, in particular changes to the activities count. -/
theorem upload_message_alert_count_only (r r' : Option UploadResults)
    (h : alertsCreatedOrZero r' = alertsCreatedOrZero r) :
    videoUploadSuccessMessage r' = videoUploadSuccessMessage r
    ∧ imageUploadSuccessMessage r' = imageUploadSuccessMessage r
    ∧ alertsCreatedOrZero (none : Option UploadResults) = 0 := by
  unfold videoUploadSuccessMessage imageUploadSuccessMessage
  rw [h]
  exact ⟨rfl, rfl, rfl⟩

/-- Concrete check of the message theorem: results differing only in the
activities count yield the same messages. -/
theorem upload_message_alert_count_only_check :
    videoUploadSuccessMessage (some ⟨3, 10⟩) = videoUploadSuccessMessage (some ⟨3, 0⟩)
    ∧ imageUploadSuccessMessage (some ⟨3, 10⟩) = imageUploadSuccessMessage (some ⟨3, 0⟩)
    ∧ alertsCreatedOrZero (none : Option UploadResults) = 0 :=
  upload_message_alert_count_only (some ⟨3, 0⟩) (some ⟨3, 10⟩) rfl

/-- C10 counterexample: updating the camera whose id is 0 while keeping
its own name is rejected as a duplicate even though no other loaded
camera has that name, because the truthiness test treats an excludeId of
0 like a missing one and the edited camera is not excluded. -/
theorem camera_name_validation_cex :
    handleSubmitValidate [⟨0, "cam"⟩] (some 0) "cam" = SubmitOutcome.rejectedDuplicate
    ∧ jsTrim "cam".data ≠ []
    ∧ ([⟨0, "cam"⟩] : List Camera).all (fun c => c.id == 0) = true := by
  refine ⟨by decide, by decide, by decide⟩

end Frontend

namespace Frontend

/-- C10 amended: an all whitespace name is rejected before any API call;
a name whose trimmed lowercased form equals that of a loaded camera is
never submitted, on create against every loaded camera and on update
against every camera other than the edited one; and the exclusion of the
edited camera takes effect provided its id is truthy (nonzero), in which
case a name colliding only with the edited camera itself is submitted. -/
theorem camera_name_validation (cameras : List Camera) (name : String) :
    (jsTrim name.data = [] → ∀ editing : Option Int,
        handleSubmitValidate cameras editing name = SubmitOutcome.rejectedEmpty)
    ∧ (∀ c ∈ cameras, jsLower (jsTrim c.name.data) = jsLower (jsTrim (jsTrim name.data)) →
        (handleSubmitValidate cameras none name ≠ SubmitOutcome.submitted
          ∧ ∀ eid : Int, c.id ≠ eid →
              handleSubmitValidate cameras (some eid) name ≠ SubmitOutcome.submitted))
    ∧ (∀ eid : Int, eid ≠ 0 → jsTrim name.data ≠ [] →
        (∀ c ∈ cameras, c.id ≠ eid →
          jsLower (jsTrim c.name.data) ≠ jsLower (jsTrim (jsTrim name.data))) →
        handleSubmitValidate cameras (some eid) name = SubmitOutcome.submitted) := by
  refine ⟨?_, ?_, ?_⟩
  · intro h editing
    cases editing <;> simp [handleSubmitValidate, h]
  · intro c hc hname
    constructor
    · by_cases hemp : jsTrim name.data = []
      · simp [handleSubmitValidate, hemp]
      · have hdup : checkDuplicateName cameras (jsTrim name.data) none = true := by
          simp [checkDuplicateName, jsFalsy]
          exact ⟨c, hc, hname⟩
        simp [handleSubmitValidate, hemp, hdup]
    · intro eid hne
      by_cases hemp : jsTrim name.data = []
      · simp [handleSubmitValidate, hemp]
      · have hdup : checkDuplicateName cameras (jsTrim name.data) (some eid) = true := by
          simp [checkDuplicateName, jsFalsy]
          exact ⟨c, hc, hname, Or.inr hne⟩
        simp [handleSubmitValidate, hemp, hdup]
  · intro eid heid hemp hno
    have hdup : checkDuplicateName cameras (jsTrim name.data) (some eid) = false := by
      simp [checkDuplicateName, jsFalsy, heid]
      intro c hc hname
      by_contra hne
      exact hno c hc hne hname
    simp [handleSubmitValidate, hemp, hdup]

/-- Concrete check of the name validation theorem: with cameras Cam A
(id 1) and door (id 2) loaded, a blank name is rejected, creating or
editing camera 2 with the name " cam a " is rejected as a duplicate of
camera 1, and editing camera 1 itself to " cam a " is submitted. -/
theorem camera_name_validation_check :
    handleSubmitValidate [⟨1, "Cam A"⟩, ⟨2, "door"⟩] none "   " = SubmitOutcome.rejectedEmpty
    ∧ handleSubmitValidate [⟨1, "Cam A"⟩, ⟨2, "door"⟩] none " cam a " ≠ SubmitOutcome.submitted
    ∧ handleSubmitValidate [⟨1, "Cam A"⟩, ⟨2, "door"⟩] (some 2) " cam a "
        ≠ SubmitOutcome.submitted
    ∧ handleSubmitValidate [⟨1, "Cam A"⟩, ⟨2, "door"⟩] (some 1) " cam a "
        = SubmitOutcome.submitted :=
  ⟨(camera_name_validation [⟨1, "Cam A"⟩, ⟨2, "door"⟩] "   ").1 (by decide) none,
   ((camera_name_validation [⟨1, "Cam A"⟩, ⟨2, "door"⟩] " cam a ").2.1 ⟨1, "Cam A"⟩
      (by decide) (by decide)).1,
   ((camera_name_validation [⟨1, "Cam A"⟩, ⟨2, "door"⟩] " cam a ").2.1 ⟨1, "Cam A"⟩
      (by decide) (by decide)).2 2 (by decide),
   (camera_name_validation [⟨1, "Cam A"⟩, ⟨2, "door"⟩] " cam a ").2.2 1
      (by decide) (by decide) (by decide)⟩

end Frontend
